import Mathlib

/-!
Verification development for the Metro-GraphRAG-Madrid recommendation pipeline.

This file gives a shallow embedding, in Lean 4, of the core logic of
`src/agent/recommender.py` (entity extraction, context retrieval from the
document and graph capabilities, route ranking, augmented-prompt construction,
orchestration) and of the hallucination detector of `src/agent/evaluate.py`,
and proves the behavioural properties stated in the specification.

Modelling conventions:
* The MongoDB and Neo4j stores, the `re.search` template matchers, and the
  language model are external capabilities; they are embedded as function
  parameters.  Store calls that can raise are `Except Unit` valued; the
  language-model `generate` is a total `String → String` because every
  provider in `src/agent/llm_interface.py` catches its own exceptions and
  returns an `"ERROR: ..."` string (the mock provider cannot fail).
* Python strings are Lean `String`s.  The Python `str.lower`, `str.strip`
  and `str.title` used by the source are reimplemented character-wise for
  the ASCII and Latin-1 ranges, which covers every alphabet character that
  occurs in this repository's data.
* Python's `None`-or-value fields are `Option`s, and Python truthiness on
  such fields (`if estudio:`) is made explicit (`none` and the empty string
  are falsy).
-/

namespace MetroRAG

/-! ### Python-style character and string helpers -/

/-- Whitespace characters recognised by Python's `str.strip` / `\s`
(for the character set that occurs in this repository). -/
def isPySpace (c : Char) : Bool :=
  c == ' ' || c == '\t' || c == '\n' || c == '\r' || c.toNat == 11 || c.toNat == 12

/-- Python `str.lower`, character-wise, on the ASCII and Latin-1 ranges
(`A`-`Z` and `À`-`Þ` except `×` map to their lowercase forms). -/
def pyCharLower (c : Char) : Char :=
  let v := c.toNat
  if 65 ≤ v ∧ v ≤ 90 then Char.ofNat (v + 32)
  else if 192 ≤ v ∧ v ≤ 222 ∧ v ≠ 215 then Char.ofNat (v + 32)
  else c

/-- Python `str.upper`, character-wise, on the ASCII and Latin-1 ranges
(`a`-`z` and `à`-`þ` except `÷` and `ÿ` map to their uppercase forms). -/
def pyCharUpper (c : Char) : Char :=
  let v := c.toNat
  if 97 ≤ v ∧ v ≤ 122 then Char.ofNat (v - 32)
  else if 224 ≤ v ∧ v ≤ 254 ∧ v ≠ 247 then Char.ofNat (v - 32)
  else c

/-- Alphabetic (cased) characters of the ASCII and Latin-1 ranges; this is
what Python's `str.title` treats as word constituents for this data. -/
def isPyAlpha (c : Char) : Bool :=
  let v := c.toNat
  (65 ≤ v && v ≤ 90) || (97 ≤ v && v ≤ 122) ||
    (192 ≤ v && v ≤ 255 && v != 215 && v != 247)

def lowerL (l : List Char) : List Char := l.map pyCharLower

/-- Python `str.lower`. -/
def pyLower (s : String) : String := String.mk (lowerL s.data)

def stripL (l : List Char) : List Char :=
  ((l.dropWhile isPySpace).reverse.dropWhile isPySpace).reverse

/-- Python `str.strip` with no argument (strip whitespace at both ends). -/
def pyStrip (s : String) : String := String.mk (stripL s.data)

/-- Python `str.title`: the first cased character of every run of cased
characters is uppercased, the rest lowercased.  The boolean argument tracks
whether the previous character was cased. -/
def pyTitleAux : Bool → List Char → List Char
  | _, [] => []
  | prevAlpha, c :: cs =>
    if isPyAlpha c then
      (if prevAlpha then pyCharLower c else pyCharUpper c) :: pyTitleAux true cs
    else
      c :: pyTitleAux false cs

/-- Python `str.title`. -/
def pyTitle (s : String) : String := String.mk (pyTitleAux false s.data)

/-- Does `needle` start the list `hay`?  (Auxiliary for substring search.) -/
def startsWithL : List Char → List Char → Bool
  | [], _ => true
  | _ :: _, [] => false
  | a :: as, b :: bs => a == b && startsWithL as bs

/-- Python's substring test `needle in hay`, on character lists. -/
def occursIn (needle : List Char) : List Char → Bool
  | [] => needle.isEmpty
  | b :: bs => startsWithL needle (b :: bs) || occursIn needle bs

/-- The case-insensitive substring test used throughout the source:
`needle.lower() in hay.lower()`. -/
def containsCI (needle hay : String) : Bool :=
  occursIn (lowerL needle.data) (lowerL hay.data)

/-- Python truthiness of a `None`-or-string value: `None` and `""` are falsy. -/
def truthyS : Option String → Bool
  | none => false
  | some s => !s.isEmpty

/-- Render a `None`-or-string value inside an f-string: `None` prints as
the four characters `None`. -/
def showOpt : Option String → String
  | none => "None"
  | some s => s

/-- Render a `None`-or-integer value inside an f-string. -/
def showOptNat : Option Nat → String
  | none => "None"
  | some n => toString n

/-! ### Data model

Mirrors the documents of the `campus` MongoDB collection and the record shapes
built by `recommender.py`. -/

/-- One entry of a campus document's `estudios` array. -/
structure Estudio where
  nombre : String
  tipo : String
  creditos : Option Nat
deriving DecidableEq

/-- One entry of a campus document's `estaciones_cercanas` array.  The
fields are read with `dict.get`, so each may be absent (`none`). -/
structure EstacionCercana where
  nombre_estacion : Option String
  rol : Option String
  minutos_andando : Option Nat
deriving DecidableEq

/-- A campus document as returned by the document capability, and also the
shape of the filtered record `_search_campus_mongodb` appends to its result
(same four keys, with `estudios` restricted to the matching ones). -/
structure CampusDoc where
  nombre : String
  universidad : String
  estudios : List Estudio
  estaciones_cercanas : List EstacionCercana
deriving DecidableEq

/-- A shortest path as held by the graph store: the visited station names and
the line identifier of each traversed edge (`[r IN relationships(path) | r.lineaId]`). -/
structure PathInfo where
  nombres : List String
  lineas : List Nat
deriving DecidableEq

/-- The single record returned by the Cypher query of `_calculate_routes_neo4j`. -/
structure RouteRow where
  ruta : List String
  num_estaciones : Nat
  num_cambios_linea : Nat
  lineas_ruta : List Nat
deriving DecidableEq

/-- One route candidate dictionary appended to `rutas` in
`_calculate_routes_neo4j`. -/
structure Ruta where
  campus : String
  universidad : String
  estacion_destino : String
  rol_estacion : Option String
  minutos_andando : Option Nat
  ruta : List String
  num_estaciones : Nat
  num_cambios_linea : Nat
  lineas_usadas : List Nat
deriving DecidableEq

/-- The entities dictionary built by `_extract_entities`: both keys are always
present, each holding `None` or a string. -/
structure Entities where
  estacion_origen : Option String
  estudio : Option String
deriving DecidableEq

/-- The context dictionary built by `_retrieve_context`. -/
structure Context where
  campus : List CampusDoc
  rutas : List Ruta
  estacion_origen : Option String
  estudio_buscado : Option String
deriving DecidableEq

/-! ### External capabilities -/

/-- The document-query capability (`self.db.campus.find` on a study-name
regex): given the study filter, it returns the matching campus documents or
raises.  Raising is modelled as `Except.error ()`. -/
abbrev MongoCap := String → Except Unit (List CampusDoc)

/-- The graph-query capability (`session.run` of the shortest-path Cypher,
before the query's own row post-processing): given origin and destination
station names it returns the shortest path (`none` when no path exists) or
raises. -/
abbrev GraphCap := String → String → Except Unit (Option PathInfo)

/-- A regex-template oracle: `re.search(pattern, query, re.IGNORECASE)`
restricted to its first capture group, `none` meaning no match.  The cascade
control flow of `_extract_entities` is embedded over such oracles; the three
concrete station patterns and three study patterns of the source are
instances. -/
abbrev Matcher := String → Option String

/-! ### Phase 1: entity extraction (`_extract_entities`) -/

/-- The `for pattern in patterns: if match: ...; break` loop: the first
template that matches wins, later templates are never consulted. -/
def firstGroup (pats : List Matcher) (q : String) : Option String :=
  match pats with
  | [] => none
  | p :: ps =>
    match p q with
    | some g => some g
    | none => firstGroup ps q

/-- The per-field extraction cascade of `_extract_entities`: try the ordered
regex templates (normalising the captured group with `norm`); if the result
is falsy (`None`, or an empty string after normalisation), fall back to the
first gazetteer entry that occurs case-insensitively in the query. -/
def extractField (pats : List Matcher) (norm : String → String)
    (gaz : List String) (q : String) : Option String :=
  let r0 := (firstGroup pats q).map norm
  if truthyS r0 then r0
  else
    match gaz.find? (fun g => containsCI g q) with
    | some g => some g
    | none => r0

/-- Normalisation applied to a captured origin-station phrase:
`match.group(1).strip().title()`. -/
def normEstacion (g : String) : String := pyTitle (pyStrip g)

/-- Normalisation applied to a captured study phrase: `match.group(1).strip()`. -/
def normEstudio (g : String) : String := pyStrip g

/-- The station gazetteer `estaciones_comunes` of `_extract_entities`. -/
def estacionesComunes : List String :=
  ["Sol", "Atocha", "Chamartín", "Moncloa", "Ciudad Universitaria",
   "Príncipe Pío", "Pacífico", "Plaza de Castilla"]

/-- The study gazetteer `estudios_comunes` of `_extract_entities`. -/
def estudiosComunes : List String :=
  ["Inteligencia Artificial", "Ciencia e Ingeniería de Datos",
   "Machine Learning", "Big Data", "Ciberseguridad"]

/-- Embedding of `_extract_entities`, parameterised by the two ordered template-oracle
lists (the source's `estacion_patterns` and `estudio_patterns`). -/
def extractEntities (estPats stuPats : List Matcher) (q : String) : Entities :=
  { estacion_origen := extractField estPats normEstacion estacionesComunes q,
    estudio := extractField stuPats normEstudio estudiosComunes q }

/-! ### Phase 2: retrieval (`_search_campus_mongodb`, `_calculate_routes_neo4j`) -/

/-- The Python-side filter-then-project step of `_search_campus_mongodb`:
keep only the studies whose name contains the filter case-insensitively, and
drop the campus entirely when none remains. -/
def matchCampus (q : String) (c : CampusDoc) : Option CampusDoc :=
  let m := c.estudios.filter (fun e => containsCI q e.nombre)
  if m.isEmpty then none
  else some { nombre := c.nombre, universidad := c.universidad,
              estudios := m, estaciones_cercanas := c.estaciones_cercanas }

/-- Embedding of `_search_campus_mongodb`: query the document capability and filter; any
store exception is caught and yields the empty list. -/
def searchCampusMongodb (mcap : MongoCap) (q : String) : List CampusDoc :=
  match mcap q with
  | .error _ => []
  | .ok docs => docs.filterMap (matchCampus q)

/-- Number of adjacent edge pairs whose line identifiers differ: the Cypher
`sum(CASE WHEN lineas_ruta[i] <> lineas_ruta[i+1] THEN 1 ELSE 0 END)` over
`i IN range(0, size(lineas_ruta) - 2)` (Cypher `range` end is inclusive, so
the pairs are exactly the adjacent ones). -/
def countCambios (lineas : List Nat) : Nat :=
  (lineas.zip lineas.tail).countP (fun p => p.1 != p.2)

/-- Row post-processing performed by the Cypher query itself.  `length(path)`
is the relationship count, i.e. `lineas.length`.  When the path has fewer
than two edges, `range(0, size(lineas_ruta) - 2)` is empty, the `UNWIND`
yields no rows and `.single()` returns no record, so such paths produce no
route candidate. -/
def cypherRow (p : PathInfo) : Option RouteRow :=
  if 2 ≤ p.lineas.length then
    some { ruta := p.nombres, num_estaciones := p.lineas.length,
           num_cambios_linea := countCambios p.lineas, lineas_ruta := p.lineas }
  else none

/-- The route dictionary appended for a successful `(campus, nearby station)`
pair.  Python's `list(set(...))` for `lineas_usadas` iterates in an
unspecified order; it is modelled as first-occurrence deduplication (the
field takes part in no ranking or claim beyond being displayed). -/
def mkRuta (c : CampusDoc) (ec : EstacionCercana) (dest : String) (row : RouteRow) : Ruta :=
  { campus := c.nombre, universidad := c.universidad, estacion_destino := dest,
    rol_estacion := ec.rol, minutos_andando := ec.minutos_andando,
    ruta := row.ruta, num_estaciones := row.num_estaciones,
    num_cambios_linea := row.num_cambios_linea,
    lineas_usadas := row.lineas_ruta.eraseDups }

/-- The discovery loops of `_calculate_routes_neo4j`, in discovery order:
for every campus, for every nearby station, skip the pair when the station
name is absent or falsy, when the graph call raises (the `except` branch),
when no path exists, or when the path has fewer than two edges; otherwise
append the route candidate. -/
def discoverRutas (gcap : GraphCap) (origen : String)
    (campusList : List CampusDoc) : List Ruta :=
  campusList.flatMap fun c =>
    c.estaciones_cercanas.filterMap fun ec =>
      match ec.nombre_estacion with
      | none => none
      | some dest =>
        if dest.isEmpty then none
        else
          match gcap origen dest with
          | .error _ => none
          | .ok none => none
          | .ok (some p) => (cypherRow p).map (mkRuta c ec dest)

/-- The sort key relation of `rutas.sort(key=lambda x: (x["num_cambios_linea"],
x["num_estaciones"]))`: lexicographic "less or equal" on the key pair. -/
def keyLeP (a b : Ruta) : Prop :=
  a.num_cambios_linea < b.num_cambios_linea ∨
    (a.num_cambios_linea = b.num_cambios_linea ∧ a.num_estaciones ≤ b.num_estaciones)

instance : DecidableRel keyLeP := fun a b => by
  unfold keyLeP; infer_instance

instance : IsTotal Ruta keyLeP :=
  ⟨fun a b => by unfold keyLeP; omega⟩

instance : IsTrans Ruta keyLeP :=
  ⟨fun a b c hab hbc => by unfold keyLeP at hab hbc ⊢; omega⟩

/-- The sort key itself. -/
def routeKey (r : Ruta) : Nat × Nat := (r.num_cambios_linea, r.num_estaciones)

/-- Embedding of `rutas.sort(key=...)`: Python's `list.sort` is a stable sort by the key,
and a stable sort by a key is a unique function of its input; stable insertion
sort (`List.insertionSort` with the key's "less or equal") computes it. -/
def sortRutas (l : List Ruta) : List Ruta := List.insertionSort keyLeP l

/-- Embedding of `_calculate_routes_neo4j`: discover all candidates, then sort them by
(transfer count, station count). -/
def calculateRoutesNeo4j (gcap : GraphCap) (origen : String)
    (campusList : List CampusDoc) : List Ruta :=
  sortRutas (discoverRutas gcap origen campusList)

/-- Embedding of `_retrieve_context`: the document store is consulted only when the study
entity is truthy, the graph store only when the origin entity is truthy and
at least one campus matched. -/
def retrieveContext (mcap : MongoCap) (gcap : GraphCap) (ents : Entities) : Context :=
  let campus :=
    if truthyS ents.estudio then searchCampusMongodb mcap (ents.estudio.getD "")
    else []
  let rutas :=
    if truthyS ents.estacion_origen && !campus.isEmpty then
      calculateRoutesNeo4j gcap (ents.estacion_origen.getD "") campus
    else []
  { campus := campus, rutas := rutas,
    estacion_origen := ents.estacion_origen, estudio_buscado := ents.estudio }

/-! ### Phase 3: augmented-prompt construction (`_build_augmented_prompt`) -/

/-- The `'=' * 60` separator line. -/
def eq60 : String := String.mk (List.replicate 60 '=')

/-- Header of the augmented prompt, up to and including the
`CAMPUS QUE OFRECEN ESTE ESTUDIO:` line.  Both `entities.get(...)` defaults
of the source are dead because `_extract_entities` always stores both keys;
a `None` value renders as the text `None`. -/
def promptHeader (q : String) (ents : Entities) : String :=
  "Eres un asistente experto en el Metro de Madrid y las universidades públicas de Madrid.\n\nDATOS REALES EXTRAÍDOS DE LA BASE DE DATOS:\n"
    ++ eq60
    ++ "\n\nCONSULTA DEL USUARIO:\n"
    ++ q
    ++ "\n\nENTIDADES IDENTIFICADAS:\n- Estación de origen: "
    ++ showOpt ents.estacion_origen
    ++ "\n- Estudio buscado: "
    ++ showOpt ents.estudio
    ++ "\n\nCAMPUS QUE OFRECEN ESTE ESTUDIO:\n"

/-- One numbered campus block of the prompt.  `if estudio.get('creditos'):`
is Python truthiness, so both a missing and a zero credit count suppress the
credits line. -/
def campusEntry (i : Nat) (c : CampusDoc) : String :=
  "\n" ++ toString i ++ ". " ++ c.nombre ++ " (" ++ c.universidad ++ ")\n"
    ++ String.join (c.estudios.map fun e =>
        "   - " ++ e.nombre ++ " (" ++ e.tipo ++ ")\n"
          ++ match e.creditos with
             | some n => if n != 0 then "     Créditos: " ++ toString n ++ "\n" else ""
             | none => "")

/-- The campus section: the numbered blocks, or the explicit no-data branch. -/
def campusSection (cl : List CampusDoc) : String :=
  if cl.isEmpty then "\nNo se encontraron campus que ofrezcan este estudio.\n"
  else String.join (cl.enum.map fun p => campusEntry (p.1 + 1) p.2)

/-- The `RUTAS CALCULADAS DESDE ...:` line. -/
def rutasHeader (ents : Entities) : String :=
  "\n\nRUTAS CALCULADAS DESDE " ++ showOpt ents.estacion_origen ++ ":\n"

/-- One numbered route block of the prompt. -/
def rutaEntry (i : Nat) (r : Ruta) : String :=
  "\n" ++ toString i ++ ". Hacia " ++ r.campus ++ " (" ++ r.universidad ++ ")\n"
    ++ "   Estación destino: " ++ r.estacion_destino ++ " (" ++ showOpt r.rol_estacion ++ ")\n"
    ++ "   Distancia: " ++ toString r.num_estaciones ++ " estaciones\n"
    ++ "   Transbordos: " ++ toString r.num_cambios_linea ++ "\n"
    ++ "   Líneas usadas: "
    ++ String.intercalate ", " (r.lineas_usadas.map fun l => "L" ++ toString l)
    ++ "\n   Ruta: " ++ String.intercalate " → " r.ruta
    ++ "\n   Tiempo andando desde metro: " ++ showOptNat r.minutos_andando ++ " minutos\n"

/-- The routes section: the first three ranked routes (`rutas[:3]`), or the
explicit no-data branch. -/
def rutasSection (rutas : List Ruta) : String :=
  if rutas.isEmpty then "\nNo se pudieron calcular rutas.\n"
  else String.join ((rutas.take 3).enum.map fun p => rutaEntry (p.1 + 1) p.2)

/-- The fixed closing instruction block. -/
def promptFooter : String :=
  "\n" ++ eq60
    ++ "\n\nINSTRUCCIONES:\n1. Basándote ÚNICAMENTE en los datos anteriores (NO uses conocimiento general)\n2. Recomienda la mejor opción considerando:\n   - Menor número de transbordos\n   - Menor distancia total\n   - Tiempo de acceso andando desde la estación\n3. Explica claramente la ruta paso a paso\n4. Menciona el nombre exacto del estudio ofrecido\n5. Si no hay datos disponibles, indícalo claramente\n\nResponde de forma concisa y estructurada:"

/-- Embedding of `_build_augmented_prompt`. -/
def buildAugmentedPrompt (q : String) (ents : Entities) (ctx : Context) : String :=
  promptHeader q ents ++ campusSection ctx.campus ++ rutasHeader ents
    ++ rutasSection ctx.rutas ++ promptFooter

/-! ### Orchestration (`baseline_llm`, `graphrag_recommendation`, `compare_methods`,
`_extract_sources`) -/

/-- Embedding of `_extract_sources`: a human-readable tally per non-empty subresult. -/
def extractSources (ctx : Context) : List String :=
  (if ctx.campus.isEmpty then []
   else ["MongoDB: " ++ toString ctx.campus.length ++ " campus"]) ++
  (if ctx.rutas.isEmpty then []
   else ["Neo4j: " ++ toString ctx.rutas.length ++ " rutas calculadas"])

/-- The result dictionary of `graphrag_recommendation`. -/
structure GraphragResult where
  query : String
  entities : Entities
  context : Context
  response : String
  sources : List String
deriving DecidableEq

/-- Embedding of `graphrag_recommendation`: extraction, retrieval, augmentation, generation. -/
def graphragRecommendation (estPats stuPats : List Matcher) (mcap : MongoCap)
    (gcap : GraphCap) (llm : String → String) (q : String) : GraphragResult :=
  let ents := extractEntities estPats stuPats q
  let ctx := retrieveContext mcap gcap ents
  { query := q, entities := ents, context := ctx,
    response := llm (buildAugmentedPrompt q ents ctx),
    sources := extractSources ctx }

/-- The result dictionary of `baseline_llm` (`context_used` is always `None`,
`sources` always empty). -/
structure BaselineResult where
  query : String
  response : String
  context_used : Option Context
  sources : List String
deriving DecidableEq

/-- The fixed no-context prompt of `baseline_llm`. -/
def baselinePrompt (q : String) : String :=
  "Eres un asistente experto en el Metro de Madrid y las universidades públicas de Madrid.\n\nResponde a la siguiente pregunta basándote únicamente en tu conocimiento general:\n\n"
    ++ q
    ++ "\n\nProporciona:\n1. La mejor ruta en metro\n2. Los campus que ofrecen el estudio mencionado\n3. Estimación de tiempo de viaje\n4. Número de transbordos necesarios\n\nRespuesta:"

/-- Embedding of `baseline_llm`. -/
def baselineLlm (llm : String → String) (q : String) : BaselineResult :=
  { query := q, response := llm (baselinePrompt q),
    context_used := none, sources := [] }

/-- The `comparison` sub-dictionary of `compare_methods`. -/
structure Comparison where
  baseline_used_context : Bool
  graphrag_used_context : Bool
  campus_found : Nat
  routes_calculated : Nat
deriving DecidableEq

/-- The result dictionary of `compare_methods`. -/
structure CompareResult where
  query : String
  baseline : BaselineResult
  graphrag : GraphragResult
  comparison : Comparison
deriving DecidableEq

/-- Embedding of `compare_methods`: run both pipelines and summarise. -/
def compareMethods (estPats stuPats : List Matcher) (mcap : MongoCap)
    (gcap : GraphCap) (llm : String → String) (q : String) : CompareResult :=
  let b := baselineLlm llm q
  let g := graphragRecommendation estPats stuPats mcap gcap llm q
  { query := q, baseline := b, graphrag := g,
    comparison :=
      { baseline_used_context := false,
        graphrag_used_context := 0 < g.sources.length,
        campus_found := g.context.campus.length,
        routes_calculated := g.context.rutas.length } }

/-- Degrade a document capability: an exception behaves exactly like an empty
query result.  Used to state that store failures never escape the pipeline. -/
def degradeMongo (m : MongoCap) : MongoCap := fun q =>
  match m q with
  | .error _ => .ok []
  | r => r

/-- Degrade a graph capability: an exception behaves exactly like "no path".
Used to state that per-pair graph failures only skip that candidate. -/
def degradeGraph (g : GraphCap) : GraphCap := fun o d =>
  match g o d with
  | .error _ => .ok none
  | r => r

/-! ### Evaluation harness (`detect_hallucinations_graphrag` of `src/agent/evaluate.py`)

The campus-mention scan is `re.findall(r"campus\s+(?:de\s+)?([A-ZÁ-Úa-záéíóúñ\s]+)",
response, re.IGNORECASE)`.  The pattern is embedded directly (there is no
alternation between templates here, so the whole matcher, including its
backtracking over the greedy `\s+` and the optional `de\s+`, is small). -/

/-- Membership in the capture group's character class
`[A-ZÁ-Úa-záéíóúñ\s]` under `re.IGNORECASE` (both the class characters and
the subject character are case-folded).  After lowercasing, the class is
`a`-`z`, `á`(U+00E1)-`ö`(U+00F6), `×`(U+00D7), `ø`(U+00F8)-`ú`(U+00FA),
and whitespace. -/
def inMentionCls (c : Char) : Bool :=
  let l := pyCharLower c
  let v := l.toNat
  (97 ≤ v && v ≤ 122) || (225 ≤ v && v ≤ 246) || v == 215 ||
    (248 ≤ v && v ≤ 250) || isPySpace l

/-- The capture group `([A-ZÁ-Úa-záéíóúñ\s]+)`: a maximal non-empty run of
class characters.  Returns the group and the remainder of the subject. -/
def groupAt (cs : List Char) : Option (List Char × List Char) :=
  let run := cs.takeWhile inMentionCls
  if run.isEmpty then none else some (run, cs.dropWhile inMentionCls)

/-- Backtracking over the greedy `\s+` that follows `de`: try consuming
`j` spaces (largest first, at least one), then the capture group. -/
def deSpacesLoop (u : List Char) : Nat → Option (List Char × List Char)
  | 0 => none
  | j + 1 =>
    match groupAt (u.drop (j + 1)) with
    | some r => some r
    | none => deSpacesLoop u j

/-- The greedy optional `(?:de\s+)?` followed by the capture group. -/
def tryDeThenGroup (tail : List Char) : Option (List Char × List Char) :=
  match tail with
  | d :: e :: u =>
    if pyCharLower d == 'd' && pyCharLower e == 'e' then
      deSpacesLoop u (u.takeWhile isPySpace).length
    else none
  | _ => none

/-- Backtracking over the greedy `\s+` that follows the word `campus`:
try consuming `j` spaces (largest first, at least one), then the greedy
optional `de\s+`, then the capture group. -/
def afterCampusLoop (rest0 : List Char) : Nat → Option (List Char × List Char)
  | 0 => none
  | j + 1 =>
    let tail := rest0.drop (j + 1)
    match tryDeThenGroup tail with
    | some r => some r
    | none =>
      match groupAt tail with
      | some r => some r
      | none => afterCampusLoop rest0 j

/-- Match the literal `campus` case-insensitively at the head of the subject. -/
def stripCampusWord : List Char → Option (List Char)
  | c1 :: c2 :: c3 :: c4 :: c5 :: c6 :: rest =>
    if [c1, c2, c3, c4, c5, c6].map pyCharLower == ['c', 'a', 'm', 'p', 'u', 's'] then
      some rest
    else none
  | _ => none

/-- Attempt the whole pattern at the head of the subject; on success return
the capture group and the remainder after the match. -/
def matchCampusAt (cs : List Char) : Option (List Char × List Char) :=
  match stripCampusWord cs with
  | none => none
  | some rest0 => afterCampusLoop rest0 (rest0.takeWhile isPySpace).length

/-- The `re.findall` scan: try the pattern at each position, left to right and
non-overlapping; on a match record the group and resume after the match.
Every successful match consumes at least one character, so the subject's
length is sufficient fuel. -/
def findMentionsAux : Nat → List Char → List (List Char)
  | 0, _ => []
  | _ + 1, [] => []
  | fuel + 1, c :: rest =>
    match matchCampusAt (c :: rest) with
    | some (g, rem) => g :: findMentionsAux fuel rem
    | none => findMentionsAux fuel rest

/-- All capture groups of the campus-mention scan over a response text. -/
def findCampusMentions (resp : String) : List (List Char) :=
  findMentionsAux resp.data.length resp.data

/-- Embedding of `detect_hallucinations_graphrag`: flag every scanned campus mention whose
stripped lowercase form is non-empty, occurs in no context campus name as a
substring, and is longer than three characters (the source's
false-positive guard). -/
def detectHallucinationsGraphrag (resp : String) (ctx : Context) : List String :=
  let campusReales := ctx.campus.map fun c => lowerL c.nombre.data
  (findCampusMentions resp).filterMap fun m =>
    let clean := lowerL (stripL m)
    if !clean.isEmpty && !(campusReales.any fun real => occursIn clean real)
        && 3 < clean.length then
      some ("Campus mencionado no en contexto: " ++ String.mk m)
    else none

/-- The universe of campus names used by the benchmark (the union of the
`campus_validos` sets of `CHALLENGE_QUERIES` in `src/agent/evaluate.py`),
in order of first appearance. -/
def benchmarkCampusNames : List String :=
  ["Ciudad Universitaria (UCM)", "Campus de Moncloa (UPM)",
   "Campus de Leganés (UC3M)", "Campus Sur (UPM)",
   "Campus de Fuenlabrada (URJC)", "Campus de Vicálvaro (URJC)"]

/-- Formalisation of "the response text mentions a campus name that is not
present among the campus names in `context.campus`": some benchmark campus
name occurs (case-insensitively) in the response and is not the name of any
retrieved campus. -/
def mentionsCampusNotInContext (resp : String) (ctx : Context) : Bool :=
  benchmarkCampusNames.any fun n =>
    occursIn (lowerL n.data) (lowerL resp.data) &&
      !((ctx.campus.map CampusDoc.nombre).contains n)

/-! ### Concrete data used by witnesses and counterexamples -/

/-- A campus document offering one matching and one non-matching study. -/
def campusDocW : CampusDoc :=
  { nombre := "Ciudad Universitaria (UCM)", universidad := "UCM",
    estudios :=
      [{ nombre := "Máster en Inteligencia Artificial", tipo := "Máster",
         creditos := some 60 },
       { nombre := "Grado en Derecho", tipo := "Grado", creditos := some 240 }],
    estaciones_cercanas :=
      [{ nombre_estacion := some "Ciudad Universitaria", rol := some "principal",
         minutos_andando := some 5 }] }

/-- A document capability holding exactly `campusDocW`. -/
def mcapW : MongoCap := fun _ => .ok [campusDocW]

/-- A document capability that always raises. -/
def mcapErr : MongoCap := fun _ => .error ()

/-- A graph capability with a single two-edge path on line 1 then line 6. -/
def gcapW : GraphCap := fun _ _ =>
  .ok (some { nombres := ["Sol", "Cuatro Caminos", "Ciudad Universitaria"],
              lineas := [1, 6] })

/-- A graph capability that always raises. -/
def gcapErr : GraphCap := fun _ _ => .error ()

/-- The route candidate that `gcapW` and `campusDocW` produce. -/
def rutaW : Ruta :=
  { campus := "Ciudad Universitaria (UCM)", universidad := "UCM",
    estacion_destino := "Ciudad Universitaria", rol_estacion := some "principal",
    minutos_andando := some 5,
    ruta := ["Sol", "Cuatro Caminos", "Ciudad Universitaria"],
    num_estaciones := 2, num_cambios_linea := 1, lineas_usadas := [1, 6] }

/-- A language-model capability for witnesses (its value is irrelevant to
every claim). -/
def llmW : String → String := fun _ => "ok"

/-- Retrieval context used by the hallucination counterexample: one campus. -/
def ctxC6 : Context :=
  { campus := [campusDocW], rutas := [],
    estacion_origen := some "Sol", estudio_buscado := some "Inteligencia Artificial" }

/-- Response used by the hallucination counterexample: it names the benchmark
campus `Campus Sur (UPM)`, which is not in `ctxC6`, yet the scanned mention
cleans to `sur` (three characters), which the detector's false-positive
guard drops. -/
def respC6 : String := "La mejor opción es el Campus Sur (UPM)."

/-- Response used by the amended-claim witness: the mention cleans to
`imaginario cercano`, which is longer than three characters and occurs in no
context campus name. -/
def respC6b : String := "Hay un Campus Imaginario cercano."

/-- The campus match that `mcapW` yields for the filter
`Inteligencia Artificial` (only the matching study survives). -/
def cmW : CampusDoc :=
  { nombre := "Ciudad Universitaria (UCM)", universidad := "UCM",
    estudios :=
      [{ nombre := "Máster en Inteligencia Artificial", tipo := "Máster",
         creditos := some 60 }],
    estaciones_cercanas := campusDocW.estaciones_cercanas }

/-- Entities with both fields detected, for witnesses. -/
def entsW : Entities :=
  { estacion_origen := some "Sol", estudio := some "Inteligencia Artificial" }

/-- Entities with neither field detected. -/
def entsEmpty : Entities := { estacion_origen := none, estudio := none }

/-- An empty retrieval context. -/
def ctxEmpty : Context :=
  { campus := [], rutas := [], estacion_origen := none, estudio_buscado := none }

/-- A template oracle that never matches. -/
def mNone : Matcher := fun _ => none

/-- A template oracle that always captures a fixed raw group (with spacing
and casing noise, to exercise the normalisation). -/
def mGroup : Matcher := fun _ => some "  ciudad   universitaria "

/-- A second always-matching template oracle, used to show it is never
consulted once an earlier template matched. -/
def mGroup2 : Matcher := fun _ => some "ATOCHA"

/-! ## Helper lemmas -/

theorem keyLeP_of_key_eq {x y : Ruta} (h : routeKey x = routeKey y) : keyLeP x y := by
  unfold routeKey at h
  unfold keyLeP
  rw [Prod.mk.injEq] at h
  omega

/-- Stability of one ordered insertion, phrased through key filtering: the
elements skipped by the insertion are strictly smaller than `x`, so the
key-`k` sublist either gains `x` at its front (when `x` has key `k`) or is
unchanged. -/
theorem filter_orderedInsert_key (k : Nat × Nat) (x : Ruta) (l : List Ruta) :
    (List.orderedInsert keyLeP x l).filter (fun r => routeKey r == k)
      = if routeKey x == k then
          x :: l.filter (fun r => routeKey r == k)
        else l.filter (fun r => routeKey r == k) := by
  induction l with
  | nil =>
    by_cases hx : routeKey x = k <;>
      simp [List.orderedInsert, List.filter_cons, beq_iff_eq, hx]
  | cons y ys ih =>
    by_cases hxy : keyLeP x y
    · rw [List.orderedInsert, if_pos hxy]
      by_cases hx : routeKey x = k <;> simp [List.filter_cons, beq_iff_eq, hx]
    · rw [List.orderedInsert, if_neg hxy]
      by_cases hx : routeKey x = k
      · have hy : routeKey y ≠ k := fun hyk => hxy (keyLeP_of_key_eq (by rw [hx, hyk]))
        simp [List.filter_cons, beq_iff_eq, hx, hy, ih]
      · by_cases hy : routeKey y = k <;>
          simp [List.filter_cons, beq_iff_eq, hx, hy, ih]

/-- Stability of the whole sort: for every key, the sorted list restricted to
that key equals the input restricted to that key (original order kept). -/
theorem sortRutas_filter_key (k : Nat × Nat) (l : List Ruta) :
    (sortRutas l).filter (fun r => routeKey r == k)
      = l.filter (fun r => routeKey r == k) := by
  induction l with
  | nil => rfl
  | cons x xs ih =>
    have hs : sortRutas (x :: xs) = List.orderedInsert keyLeP x (sortRutas xs) := rfl
    rw [hs, filter_orderedInsert_key]
    by_cases hx : routeKey x = k <;> simp [List.filter_cons, beq_iff_eq, hx, ih]

theorem sortRutas_chain' (l : List Ruta) : List.Chain' keyLeP (sortRutas l) :=
  List.chain'_iff_pairwise.mpr (List.sorted_insertionSort keyLeP l)

theorem sortRutas_perm (l : List Ruta) : (sortRutas l).Perm l :=
  List.perm_insertionSort keyLeP l

theorem countCambios_le_length (l : List Nat) : countCambios l ≤ l.length := by
  unfold countCambios
  calc (l.zip l.tail).countP (fun p => p.1 != p.2)
      ≤ (l.zip l.tail).length := List.countP_le_length _
    _ ≤ l.length := by rw [List.length_zip]; exact min_le_left _ _

theorem cypherRow_some {p : PathInfo} {row : RouteRow} (h : cypherRow p = some row) :
    row.num_estaciones = p.lineas.length ∧
      row.num_cambios_linea = countCambios p.lineas := by
  unfold cypherRow at h
  split at h
  · cases h; exact ⟨rfl, rfl⟩
  · cases h

/-- Inversion of membership in the discovery loops: every candidate comes
from some campus, some nearby station with a truthy name, a successful graph
call, and the Cypher row post-processing. -/
theorem mem_discoverRutas_elim {gcap : GraphCap} {origen : String}
    {cl : List CampusDoc} {r : Ruta} (hr : r ∈ discoverRutas gcap origen cl) :
    ∃ c ∈ cl, ∃ ec ∈ c.estaciones_cercanas, ∃ p : PathInfo, ∃ row : RouteRow,
      ec.nombre_estacion = some r.estacion_destino ∧
      gcap origen r.estacion_destino = .ok (some p) ∧
      cypherRow p = some row ∧ r = mkRuta c ec r.estacion_destino row := by
  unfold discoverRutas at hr
  rw [List.mem_flatMap] at hr
  obtain ⟨c, hc, hr⟩ := hr
  rw [List.mem_filterMap] at hr
  obtain ⟨ec, hec, hmk⟩ := hr
  split at hmk
  · cases hmk
  · rename_i dest hne
    split at hmk
    · cases hmk
    · rename_i hde
      split at hmk
      · cases hmk
      · cases hmk
      · rename_i p hg
        rw [Option.map_eq_some'] at hmk
        obtain ⟨row, hrow, hrr⟩ := hmk
        have hdest : r.estacion_destino = dest := by rw [← hrr]; rfl
        exact ⟨c, hc, ec, hec, p, row, by rw [hdest]; exact hne,
               by rw [hdest]; exact hg, hrow, by rw [hdest, hrr]⟩

/-! ## Claims -/

/-- Claim C1: for every retrieval result, the routes list of the returned
context is sorted ascending by the key (transfer count, station count): every
adjacent pair `(a, b)` satisfies `a.transfer_count < b.transfer_count` or
(`a.transfer_count = b.transfer_count` and `a.station_count ≤
b.station_count`); and routes with equal keys keep their discovery order (the
sort is stable), stated as: restricting the result to any fixed key yields
exactly the discovery-ordered sublist of that key. -/
theorem routes_sorted_and_stable (gcap : GraphCap) (origen : String)
    (cl : List CampusDoc) :
    List.Chain'
      (fun a b => a.num_cambios_linea < b.num_cambios_linea ∨
        (a.num_cambios_linea = b.num_cambios_linea ∧
          a.num_estaciones ≤ b.num_estaciones))
      (calculateRoutesNeo4j gcap origen cl)
    ∧ ∀ k : Nat × Nat,
        (calculateRoutesNeo4j gcap origen cl).filter (fun r => routeKey r == k)
          = (discoverRutas gcap origen cl).filter (fun r => routeKey r == k) :=
  ⟨sortRutas_chain' _, fun k => sortRutas_filter_key k _⟩

/-- Claim C2: every route candidate produced by the route calculation, from
any path and per-edge line list the graph capability returns, satisfies
`transfer_count ≤ station_count` (the station count is the path's edge count
and the transfer count the number of adjacent edge pairs with differing
lines). -/
theorem transfer_count_le_station_count (gcap : GraphCap) (origen : String)
    (cl : List CampusDoc) (r : Ruta)
    (hr : r ∈ calculateRoutesNeo4j gcap origen cl) :
    r.num_cambios_linea ≤ r.num_estaciones := by
  have hd : r ∈ discoverRutas gcap origen cl :=
    (sortRutas_perm _).mem_iff.mp hr
  obtain ⟨c, _, ec, _, p, row, _, _, hrow, hmk⟩ := mem_discoverRutas_elim hd
  obtain ⟨hst, htr⟩ := cypherRow_some hrow
  have h1 : r.num_cambios_linea = countCambios p.lineas := by rw [hmk]; exact htr
  have h2 : r.num_estaciones = p.lineas.length := by rw [hmk]; exact hst
  rw [h1, h2]
  exact countCambios_le_length _

/-- Witness for claim C2 at a concrete graph capability and campus list. -/
theorem transfer_count_le_station_count_witness :
    rutaW ∈ calculateRoutesNeo4j gcapW "Sol" [campusDocW] ∧
      rutaW.num_cambios_linea ≤ rutaW.num_estaciones := by
  have hm : rutaW ∈ calculateRoutesNeo4j gcapW "Sol" [campusDocW] := by decide
  exact ⟨hm, transfer_count_le_station_count gcapW "Sol" [campusDocW] rutaW hm⟩

theorem searchCampus_degrade (mcap : MongoCap) (q : String) :
    searchCampusMongodb (degradeMongo mcap) q = searchCampusMongodb mcap q := by
  unfold searchCampusMongodb degradeMongo
  cases h : mcap q <;> simp [h]

theorem discoverRutas_degrade (gcap : GraphCap) (origen : String)
    (cl : List CampusDoc) :
    discoverRutas (degradeGraph gcap) origen cl = discoverRutas gcap origen cl := by
  unfold discoverRutas
  refine congrArg (List.flatMap cl) (funext fun c => ?_)
  refine congrArg (List.filterMap · c.estaciones_cercanas) (funext fun ec => ?_)
  cases ec.nombre_estacion with
  | none => rfl
  | some dest =>
    by_cases hde : dest.isEmpty
    · simp [hde]
    · simp only [hde, if_false, Bool.false_eq_true]
      unfold degradeGraph
      cases h : gcap origen dest with
      | error e => simp [h]
      | ok po => simp [h]

theorem calculateRoutes_degrade (gcap : GraphCap) (origen : String)
    (cl : List CampusDoc) :
    calculateRoutesNeo4j (degradeGraph gcap) origen cl
      = calculateRoutesNeo4j gcap origen cl :=
  congrArg sortRutas (discoverRutas_degrade gcap origen cl)

theorem retrieveContext_degrade (mcap : MongoCap) (gcap : GraphCap) (ents : Entities) :
    retrieveContext (degradeMongo mcap) (degradeGraph gcap) ents
      = retrieveContext mcap gcap ents := by
  unfold retrieveContext
  simp only [searchCampus_degrade, calculateRoutes_degrade]

/-- Claim C3: `baseline`, `graphrag` and `compare` always return a well-formed
response object and never propagate a store exception (connection setup in the
constructor is outside these operations): a document-store error during
retrieval yields an empty campus list, a graph-store error for a
(campus, nearby-station) pair skips exactly that candidate, and the whole
pipeline behaves as if those calls had merely returned no data. -/
theorem store_errors_never_propagate (estPats stuPats : List Matcher)
    (mcap : MongoCap) (gcap : GraphCap) (llm : String → String)
    (q origen : String) (cl : List CampusDoc) :
    (mcap q = .error () → searchCampusMongodb mcap q = [])
    ∧ (∀ d, gcap origen d = .error () →
        ∀ r ∈ calculateRoutesNeo4j gcap origen cl, r.estacion_destino ≠ d)
    ∧ compareMethods estPats stuPats mcap gcap llm q
        = compareMethods estPats stuPats (degradeMongo mcap) (degradeGraph gcap) llm q := by
  refine ⟨fun herr => ?_, fun d herr r hr hd => ?_, ?_⟩
  · unfold searchCampusMongodb
    rw [herr]
  · have hdisc : r ∈ discoverRutas gcap origen cl :=
      (sortRutas_perm _).mem_iff.mp hr
    obtain ⟨c, _, ec, _, p, row, _, hg, _, _⟩ := mem_discoverRutas_elim hdisc
    rw [hd, herr] at hg
    cases hg
  · unfold compareMethods graphragRecommendation
    simp only [retrieveContext_degrade]

/-- Witness for claim C3 at concrete always-raising capabilities. -/
theorem store_errors_never_propagate_witness :
    searchCampusMongodb mcapErr "Inteligencia Artificial" = []
    ∧ (∀ r ∈ calculateRoutesNeo4j gcapErr "Sol" [campusDocW],
        r.estacion_destino ≠ "Ciudad Universitaria")
    ∧ compareMethods [] [] mcapErr gcapErr llmW "hola"
        = compareMethods [] [] (degradeMongo mcapErr) (degradeGraph gcapErr) llmW "hola" := by
  have h := store_errors_never_propagate [] [] mcapErr gcapErr llmW
    "Inteligencia Artificial" "Sol" [campusDocW]
  refine ⟨h.1 rfl, fun r hr => h.2.1 "Ciudad Universitaria" rfl r hr, ?_⟩
  exact (store_errors_never_propagate [] [] mcapErr gcapErr llmW
    "hola" "Sol" [campusDocW]).2.2

theorem mem_searchCampus_matches {mcap : MongoCap} {q : String} {cm : CampusDoc}
    (hcm : cm ∈ searchCampusMongodb mcap q) :
    cm.estudios ≠ [] ∧ ∀ e ∈ cm.estudios, containsCI q e.nombre = true := by
  unfold searchCampusMongodb at hcm
  cases h : mcap q with
  | error e => rw [h] at hcm; cases hcm
  | ok docs =>
    rw [h, List.mem_filterMap] at hcm
    obtain ⟨d, _, hmc⟩ := hcm
    simp only [matchCampus] at hmc
    split at hmc
    · cases hmc
    · rename_i hne
      cases hmc
      refine ⟨List.isEmpty_eq_false.mp (Bool.not_eq_true _ ▸ (by simpa using hne)), ?_⟩
      intro e he
      exact (List.mem_filter.mp he).2

/-- Claim C4: every campus match placed in the retrieved context has a
non-empty `matched_studies` list, and every study it contains has a name that
contains the study filter as a case-insensitive substring; an unmatched study
of a returned campus never appears. -/
theorem campus_matches_study_filter (mcap : MongoCap) (gcap : GraphCap)
    (ents : Entities) (cm : CampusDoc)
    (hcm : cm ∈ (retrieveContext mcap gcap ents).campus) :
    cm.estudios ≠ [] ∧
      ∀ e ∈ cm.estudios, containsCI (ents.estudio.getD "") e.nombre = true := by
  unfold retrieveContext at hcm
  simp only at hcm
  split at hcm
  · exact mem_searchCampus_matches hcm
  · cases hcm

/-- Witness for claim C4 at a concrete document capability. -/
theorem campus_matches_study_filter_witness :
    cmW ∈ (retrieveContext mcapW gcapW entsW).campus ∧
      cmW.estudios ≠ [] ∧
      ∀ e ∈ cmW.estudios,
        containsCI (entsW.estudio.getD "") e.nombre = true := by
  have hm : cmW ∈ (retrieveContext mcapW gcapW entsW).campus := by decide
  exact ⟨hm, campus_matches_study_filter mcapW gcapW entsW cmW hm⟩

/-- Claim C5: when entity extraction detects neither an origin station nor a
study name, the graphrag context has empty campus and routes lists and the
sources list is empty. -/
theorem no_entities_empty_context (estPats stuPats : List Matcher)
    (mcap : MongoCap) (gcap : GraphCap) (llm : String → String) (q : String)
    (h : extractEntities estPats stuPats q
          = { estacion_origen := none, estudio := none }) :
    (graphragRecommendation estPats stuPats mcap gcap llm q).context.campus = []
    ∧ (graphragRecommendation estPats stuPats mcap gcap llm q).context.rutas = []
    ∧ (graphragRecommendation estPats stuPats mcap gcap llm q).sources = [] := by
  unfold graphragRecommendation
  rw [h]
  unfold retrieveContext extractSources truthyS
  simp

/-- Witness for claim C5 at a concrete query with no detectable entities. -/
theorem no_entities_empty_context_witness :
    (graphragRecommendation [] [] mcapW gcapW llmW "hola").context.campus = []
    ∧ (graphragRecommendation [] [] mcapW gcapW llmW "hola").context.rutas = []
    ∧ (graphragRecommendation [] [] mcapW gcapW llmW "hola").sources = [] :=
  no_entities_empty_context [] [] mcapW gcapW llmW "hola" (by decide)

theorem startsWithL_append_self (n rest : List Char) :
    startsWithL n (n ++ rest) = true := by
  induction n with
  | nil => rfl
  | cons c cs ih => simp [startsWithL, ih]

theorem occursIn_nil_needle (l : List Char) : occursIn [] l = true := by
  cases l <;> simp [occursIn, startsWithL]

theorem occursIn_self_append (n rest : List Char) :
    occursIn n (n ++ rest) = true := by
  cases n with
  | nil => exact occursIn_nil_needle rest
  | cons c cs =>
    show (startsWithL (c :: cs) ((c :: cs) ++ rest) || _) = true
    rw [startsWithL_append_self]
    rfl

theorem occursIn_append_left (n pre post : List Char)
    (h : occursIn n post = true) : occursIn n (pre ++ post) = true := by
  induction pre with
  | nil => exact h
  | cons c cs ih =>
    show (startsWithL n (c :: (cs ++ post)) || occursIn n (cs ++ post)) = true
    rw [ih]
    exact Bool.or_true _

theorem occursIn_middle (n pre post : List Char) :
    occursIn n (pre ++ (n ++ post)) = true :=
  occursIn_append_left n pre (n ++ post) (occursIn_self_append n post)

/-- Claim C7: when the retrieved campus list is empty the built augmented
prompt contains the literal no-campus branch text ("No se encontraron
campus ..."), and when the routes list is empty the prompt explicitly states
that routes could not be calculated; neither empty section is silently
omitted. -/
theorem empty_branches_stated_in_prompt (q : String) (ents : Entities)
    (ctx : Context) :
    (ctx.campus = [] →
      occursIn "No se encontraron campus que ofrezcan este estudio.".data
        (buildAugmentedPrompt q ents ctx).data = true)
    ∧ (ctx.rutas = [] →
      occursIn "No se pudieron calcular rutas.".data
        (buildAugmentedPrompt q ents ctx).data = true) := by
  constructor
  · intro hc
    have hsec : campusSection ctx.campus
        = "\n" ++ ("No se encontraron campus que ofrezcan este estudio." ++ "\n") := by
      rw [hc]; rfl
    unfold buildAugmentedPrompt
    rw [hsec]
    simp only [String.data_append, List.append_assoc]
    exact occursIn_append_left _ _ _ (occursIn_middle _ _ _)
  · intro hr
    have hsec : rutasSection ctx.rutas
        = "\n" ++ ("No se pudieron calcular rutas." ++ "\n") := by
      rw [hr]; rfl
    unfold buildAugmentedPrompt
    rw [hsec]
    simp only [String.data_append, List.append_assoc]
    exact occursIn_append_left _ _ _ (occursIn_append_left _ _ _
      (occursIn_append_left _ _ _ (occursIn_middle _ _ _)))

/-- Witness for claim C7 at a concrete empty context. -/
theorem empty_branches_stated_in_prompt_witness :
    occursIn "No se encontraron campus que ofrezcan este estudio.".data
      (buildAugmentedPrompt "hola" entsEmpty ctxEmpty).data = true
    ∧ occursIn "No se pudieron calcular rutas.".data
      (buildAugmentedPrompt "hola" entsEmpty ctxEmpty).data = true :=
  ⟨(empty_branches_stated_in_prompt "hola" entsEmpty ctxEmpty).1 rfl,
   (empty_branches_stated_in_prompt "hola" entsEmpty ctxEmpty).2 rfl⟩

theorem rutasSection_take_three (l : List Ruta) :
    rutasSection l = rutasSection (l.take 3) := by
  unfold rutasSection
  cases l with
  | nil => rfl
  | cons r rs =>
    rw [List.take_succ_cons]
    simp [List.take_take]

/-- Claim C8: the prompt builder renders at most the first three routes of
the ranked list (routes ranked fourth or later never influence the prompt),
while the retriever applies no truncation: its result is a permutation of
(exactly) the discovered candidates. -/
theorem prompt_top3_retriever_untruncated (q : String) (ents : Entities)
    (ctx : Context) (gcap : GraphCap) (origen : String) (cl : List CampusDoc) :
    buildAugmentedPrompt q ents ctx
      = buildAugmentedPrompt q ents { ctx with rutas := ctx.rutas.take 3 }
    ∧ (calculateRoutesNeo4j gcap origen cl).Perm (discoverRutas gcap origen cl) := by
  constructor
  · unfold buildAugmentedPrompt
    rw [rutasSection_take_three]
  · exact sortRutas_perm _

/-- Counterexample to claim C6 as stated: the response names the benchmark
campus `Campus Sur (UPM)`, which is absent from the retrieved context, yet
the harness's hallucination list is empty, because the scanned mention cleans
to the three-character string `sur` and the detector drops every cleaned
mention of length at most three. -/
theorem hallucination_claim_counterexample :
    mentionsCampusNotInContext respC6 ctxC6 = true
    ∧ detectHallucinationsGraphrag respC6 ctxC6 = [] := by
  constructor
  · decide
  · decide

/-- Claim C6, amended to what the detector actually guarantees: if the
campus-mention scan extracts from the response a mention whose stripped
lowercase form is longer than three characters and is a substring of no
context campus name, then the hallucination list for that item is
non-empty. -/
theorem hallucination_list_nonempty_amended (resp : String) (ctx : Context)
    (m : List Char) (hm : m ∈ findCampusMentions resp)
    (hlen : 3 < (lowerL (stripL m)).length)
    (hni : ∀ c ∈ ctx.campus,
      occursIn (lowerL (stripL m)) (lowerL c.nombre.data) = false) :
    detectHallucinationsGraphrag resp ctx ≠ [] := by
  have hne : (lowerL (stripL m)).isEmpty = false := by
    cases hl : lowerL (stripL m) with
    | nil => rw [hl] at hlen; simp at hlen
    | cons a l => rfl
  have hany : ((ctx.campus.map fun c => lowerL c.nombre.data).any
      fun real => occursIn (lowerL (stripL m)) real) = false := by
    rw [List.any_eq_false]
    intro real hreal
    rw [List.mem_map] at hreal
    obtain ⟨c, hc, hcr⟩ := hreal
    rw [← hcr, hni c hc]
    exact Bool.false_ne_true
  have hx : ("Campus mencionado no en contexto: " ++ String.mk m)
      ∈ detectHallucinationsGraphrag resp ctx := by
    unfold detectHallucinationsGraphrag
    refine List.mem_filterMap.mpr ⟨m, hm, ?_⟩
    simp only [hne, hany, Bool.not_false, Bool.true_and, decide_eq_true_eq]
    rw [if_pos hlen]
  exact List.ne_nil_of_mem hx

/-- Witness for the amended claim C6 at a concrete response and context. -/
theorem hallucination_list_nonempty_amended_witness :
    "Imaginario cercano".data ∈ findCampusMentions respC6b
    ∧ detectHallucinationsGraphrag respC6b ctxEmpty ≠ [] := by
  have hm : "Imaginario cercano".data ∈ findCampusMentions respC6b := by decide
  refine ⟨hm, hallucination_list_nonempty_amended respC6b ctxEmpty
    "Imaginario cercano".data hm (by decide) ?_⟩
  intro c hc
  cases hc

theorem firstGroup_eq_none_iff (pats : List Matcher) (q : String) :
    firstGroup pats q = none ↔ ∀ p ∈ pats, p q = none := by
  induction pats with
  | nil => simp [firstGroup]
  | cons p ps ih =>
    cases hp : p q with
    | some g => simp [firstGroup, hp]
    | none => simp [firstGroup, hp, ih]

theorem firstGroup_append_of_none (pre rest : List Matcher) (q : String)
    (hpre : ∀ p ∈ pre, p q = none) :
    firstGroup (pre ++ rest) q = firstGroup rest q := by
  induction pre with
  | nil => rfl
  | cons p ps ih =>
    have hp : p q = none := hpre p (List.mem_cons_self p ps)
    show firstGroup ((p :: ps) ++ rest) q = _
    rw [List.cons_append, firstGroup, hp]
    exact ih fun p' hp' => hpre p' (List.mem_cons_of_mem p hp')

theorem extractField_eq_none_iff (pats : List Matcher) (norm : String → String)
    (gaz : List String) (q : String) :
    extractField pats norm gaz q = none ↔
      (∀ p ∈ pats, p q = none) ∧ ∀ g ∈ gaz, containsCI g q = false := by
  unfold extractField
  cases hfg : firstGroup pats q with
  | some g0 =>
    have hne : ¬∀ p ∈ pats, p q = none :=
      fun hall => by rw [(firstGroup_eq_none_iff pats q).mpr hall] at hfg; cases hfg
    simp only [Option.map_some']
    by_cases ht : truthyS (some (norm g0))
    · simp [ht, hne]
    · simp only [ht, if_false, Bool.false_eq_true]
      cases hf : gaz.find? (fun g => containsCI g q) <;> simp [hne]
  | none =>
    simp only [Option.map_none', truthyS, Bool.false_eq_true, if_false]
    constructor
    · intro hnone
      cases hf : gaz.find? (fun g => containsCI g q) with
      | some g1 => rw [hf] at hnone; cases hnone
      | none =>
        refine ⟨(firstGroup_eq_none_iff pats q).mp hfg, fun g1 hg1 => ?_⟩
        have hq := List.find?_eq_none.mp hf g1 hg1
        cases hcq : containsCI g1 q
        · rfl
        · exact absurd hcq hq
    · intro hrg
      have hfn : gaz.find? (fun g => containsCI g q) = none :=
        List.find?_eq_none.mpr fun x hx => by simp [hrg.2 x hx]
      rw [hfn]

theorem extractField_first_template (pre post : List Matcher) (m : Matcher)
    (norm : String → String) (gaz : List String) (q : String) (g : String)
    (hpre : ∀ p ∈ pre, p q = none) (hm : m q = some g) :
    extractField (pre ++ m :: post) norm gaz q
      = extractField (pre ++ [m]) norm gaz q := by
  have h1 : firstGroup (pre ++ m :: post) q = some g := by
    rw [firstGroup_append_of_none pre (m :: post) q hpre, firstGroup, hm]
  have h2 : firstGroup (pre ++ [m]) q = some g := by
    rw [firstGroup_append_of_none pre [m] q hpre, firstGroup, hm]
  unfold extractField
  rw [h1, h2]

/-- Claim C9: entity extraction is total (it is a function into a record with
both fields, so it cannot raise); a field is `None` exactly when no template
and no gazetteer entry matches; and the first matching template in the
ordered list settles the pattern stage for that field — templates after it
are never consulted (no backtracking). -/
theorem extraction_none_iff_and_first_template_wins
    (estPats stuPats : List Matcher) (q : String) :
    ((extractEntities estPats stuPats q).estacion_origen = none ↔
      (∀ p ∈ estPats, p q = none) ∧
        ∀ g ∈ estacionesComunes, containsCI g q = false)
    ∧ ((extractEntities estPats stuPats q).estudio = none ↔
      (∀ p ∈ stuPats, p q = none) ∧
        ∀ g ∈ estudiosComunes, containsCI g q = false)
    ∧ (∀ (pre post : List Matcher) (m : Matcher) (g : String),
        (∀ p ∈ pre, p q = none) → m q = some g →
        extractEntities (pre ++ m :: post) stuPats q
          = extractEntities (pre ++ [m]) stuPats q)
    ∧ (∀ (pre post : List Matcher) (m : Matcher) (g : String),
        (∀ p ∈ pre, p q = none) → m q = some g →
        extractEntities estPats (pre ++ m :: post) q
          = extractEntities estPats (pre ++ [m]) q) := by
  refine ⟨extractField_eq_none_iff estPats normEstacion estacionesComunes q,
    extractField_eq_none_iff stuPats normEstudio estudiosComunes q,
    fun pre post m g hpre hm => ?_, fun pre post m g hpre hm => ?_⟩
  · unfold extractEntities
    rw [extractField_first_template pre post m normEstacion estacionesComunes q g hpre hm]
  · unfold extractEntities
    rw [extractField_first_template pre post m normEstudio estudiosComunes q g hpre hm]

/-- Witness for claim C9: with one never-matching template followed by a
matching one, the extraction result ignores every later template; and on a
query matching nothing, both fields are `None`. -/
theorem extraction_none_iff_and_first_template_wins_witness :
    extractEntities [mNone, mGroup, mGroup2] [] "zzz"
      = extractEntities [mNone, mGroup] [] "zzz"
    ∧ (extractEntities [] [] "zzz").estacion_origen = none := by
  constructor
  · exact (extraction_none_iff_and_first_template_wins [mNone, mGroup, mGroup2] [] "zzz").2.2.1
      [mNone] [mGroup2] mGroup "  ciudad   universitaria "
      (fun p hp => by rw [List.mem_singleton] at hp; rw [hp]; rfl) rfl
  · exact (extraction_none_iff_and_first_template_wins [] [] "zzz").1.mpr
      ⟨fun p hp => absurd hp (List.not_mem_nil p), by decide⟩

theorem pyTitleAux_ne_nil {b : Bool} {l : List Char} (h : l ≠ []) :
    pyTitleAux b l ≠ [] := by
  cases l with
  | nil => exact absurd rfl h
  | cons c cs =>
    unfold pyTitleAux
    split <;> exact List.cons_ne_nil _ _

theorem truthyS_some_of_ne {s : String} (h : s ≠ "") :
    truthyS (some s) = true := by
  unfold truthyS
  cases he : s.isEmpty
  · show (!s.isEmpty) = true
    rw [he]
    rfl
  · exact absurd ((String.isEmpty_iff s).mp he) h

theorem truthyS_normEstacion {g : String} (h : pyStrip g ≠ "") :
    truthyS (some (normEstacion g)) = true := by
  have hd : (pyStrip g).data ≠ [] := fun hnil => h (String.ext hnil)
  refine truthyS_some_of_ne fun he => ?_
  exact pyTitleAux_ne_nil hd (congrArg String.data he)

/-- Claim C10: the origin-station value is normalised, not verbatim query
text.  When a regex template captures the origin (and the stripped capture is
non-empty, which holds for the source's origin templates since the capture
must start with a letter), the returned value is the captured phrase stripped
and title-cased; when every template misses and the gazetteer fallback fires,
the returned value is the gazetteer's canonical spelling (the case-insensitive
search makes this independent of the query's casing). -/
theorem origin_station_normalized (pre post estPats stuPats : List Matcher)
    (m : Matcher) (g g0 q : String) :
    ((∀ p ∈ pre, p q = none) → m q = some g → pyStrip g ≠ "" →
      (extractEntities (pre ++ m :: post) stuPats q).estacion_origen
        = some (pyTitle (pyStrip g)))
    ∧ ((∀ p ∈ estPats, p q = none) →
      estacionesComunes.find? (fun s => containsCI s q) = some g0 →
      (extractEntities estPats stuPats q).estacion_origen = some g0) := by
  constructor
  · intro hpre hm hst
    have h1 : firstGroup (pre ++ m :: post) q = some g := by
      rw [firstGroup_append_of_none pre (m :: post) q hpre, firstGroup, hm]
    unfold extractEntities extractField
    simp only [h1, Option.map_some']
    rw [if_pos (truthyS_normEstacion hst)]
    rfl
  · intro hall hfind
    have h1 : firstGroup estPats q = none := (firstGroup_eq_none_iff estPats q).mpr hall
    unfold extractEntities extractField
    simp only [h1, Option.map_none']
    rw [if_neg (by simp [truthyS]), hfind]

/-- Witness for claim C10: the captured raw group
`"  ciudad   universitaria "` comes back stripped and title-cased, and the
gazetteer fallback returns the canonical `Atocha` for a lowercase query. -/
theorem origin_station_normalized_witness :
    (extractEntities [mNone, mGroup] [] "zzz").estacion_origen
      = some "Ciudad   Universitaria"
    ∧ (extractEntities [mNone] [] "hay atocha aquí").estacion_origen
      = some "Atocha" := by
  constructor
  · have h := (origin_station_normalized [mNone] [] [] [] mGroup
      "  ciudad   universitaria " "" "zzz").1
      (fun p hp => by rw [List.mem_singleton] at hp; rw [hp]; rfl) rfl (by decide)
    exact h.trans (by decide)
  · exact (origin_station_normalized [] [] [mNone] [] mNone "" "Atocha"
      "hay atocha aquí").2
      (fun p hp => by rw [List.mem_singleton] at hp; rw [hp]; rfl) (by decide)

end MetroRAG
